import Mathlib

/-!
Shallow embedding of the `scratch` vector library
(`src/scratch/linear_algebra/vector.py` and `src/scratch/validation/vector.py`).

Python floats are modelled as rationals (every Python float value is a
rational number); `math.sqrt` is modelled by `Real.sqrt`, so magnitude,
normalisation and distance take values in `ℝ`.  Python exceptions are
modelled by `Except PyError`: in CPython, float division by zero raises
`ZeroDivisionError` (it does not produce `inf`), and list indexing accepts
negative indices, wrapping them by the length; both behaviours are embedded
faithfully below.
-/

namespace Scratch

/-- Python exceptions raised by the library, with their exact messages. -/
inductive PyError where
  | valueError (msg : String)
  | typeError (msg : String)
  | indexError (msg : String)
  | zeroDivisionError (msg : String)
deriving DecidableEq, Repr

/-- Python runtime values an element of the constructor argument may have:
`float` (the only kind `isinstance(x, float)` accepts), `int`, `bool`
(in Python `bool` is a subclass of `int`, not of `float`) and `none`. -/
inductive PyVal where
  | float (x : ℚ)
  | int (n : ℤ)
  | bool (b : Bool)
  | none
deriving DecidableEq, Repr

/-- Models `isinstance(element, float)`. -/
def PyVal.isFloat : PyVal → Bool
  | .float _ => true
  | _ => false

/-- The `Vector` dataclass: its single attribute `data`, a list of floats.
The construction-time invariants (non-empty, all floats) live in
`mkVector`, which models calling the constructor `Vector(...)`. -/
structure Vector where
  data : List ℚ
deriving DecidableEq, Repr

/-- The `for element in self.data: if not isinstance(element, float): raise
TypeError(...)` loop of `Vector.__post_init__`, returning the (unchanged)
float contents when every element is a float. -/
def extractFloats : List PyVal → Except PyError (List ℚ)
  | [] => .ok []
  | .float x :: rest => (extractFloats rest).map (fun qs => x :: qs)
  | _ :: _ => .error (.typeError "Data must be a float or int")

/-- Models the constructor call `Vector(data)` on a list of Python values:
`__post_init__` first raises `ValueError` on empty data, then raises
`TypeError` at any non-float element. -/
def mkVector (l : List PyVal) : Except PyError Vector :=
  if l.isEmpty then .error (.valueError "Data cannot be empty")
  else (extractFloats l).map Vector.mk

/-- Models the constructor call `Vector([...])` on a list that is already
all floats (the lists the arithmetic methods build): only the emptiness
check of `__post_init__` can fire. -/
def vecOfFloats (l : List ℚ) : Except PyError Vector :=
  if l.isEmpty then .error (.valueError "Data cannot be empty")
  else .ok ⟨l⟩

/-- Models `Vector.__len__`: `len(self.data)`. -/
def Vector.length (v : Vector) : Nat := v.data.length

/-- Python list indexing `self.data[index]` for an integer index: a negative
index is first shifted by the length; an index then outside `[0, len)`
raises `IndexError`. -/
def pyListGet (l : List ℚ) (i : ℤ) : Except PyError ℚ :=
  let j : ℤ := if i < 0 then i + l.length else i
  if 0 ≤ j ∧ j < l.length then .ok (l.getD j.toNat 0)
  else .error (.indexError "list index out of range")

/-- Models `Vector.__getitem__`: `return self.data[index]`. -/
def Vector.getitem (v : Vector) (i : ℤ) : Except PyError ℚ :=
  pyListGet v.data i

/-- Models `Vector.__neg__`: `Vector([-x for x in self.data])`. -/
def Vector.neg (v : Vector) : Except PyError Vector :=
  vecOfFloats (v.data.map (fun x => -x))

/-- Models the decorator `validate_vector` of `scratch.validation.vector`:
it checks `len(vector_1) != len(vector_2)` and raises `ValueError` on a
mismatch, otherwise calls the wrapped function on the unchanged operands
and returns its result verbatim.  (The `isinstance(vector_2, Vector)`
check cannot fire here because the second operand is typed as `Vector`.) -/
def validate_vector {α : Type} (f : Vector → Vector → Except PyError α)
    (v1 v2 : Vector) : Except PyError α :=
  if v1.data.length ≠ v2.data.length then
    .error (.valueError "Vectors must be of same length")
  else f v1 v2

/-- The body of `Vector.__add__`:
`Vector([a + b for a, b in zip(self.data, other.data)])`. -/
def rawAdd (a b : Vector) : Except PyError Vector :=
  vecOfFloats (List.zipWith (fun x y => x + y) a.data b.data)

/-- Models `Vector.__add__`, wrapped by `validate_vector`. -/
def Vector.add (a b : Vector) : Except PyError Vector :=
  validate_vector rawAdd a b

/-- The body of `Vector.__sub__`:
`Vector([a - b for a, b in zip(self.data, other.data)])`. -/
def rawSub (a b : Vector) : Except PyError Vector :=
  vecOfFloats (List.zipWith (fun x y => x - y) a.data b.data)

/-- Models `Vector.__sub__`, wrapped by `validate_vector`. -/
def Vector.sub (a b : Vector) : Except PyError Vector :=
  validate_vector rawSub a b

/-- Models `Vector.__mul__`: `Vector([a * scalar for a in self.data])`. -/
def Vector.mul (v : Vector) (scalar : ℚ) : Except PyError Vector :=
  vecOfFloats (v.data.map (fun a => a * scalar))

/-- Models `Vector.__rmul__`: `return self * scalar`. -/
def Vector.rmul (scalar : ℚ) (v : Vector) : Except PyError Vector :=
  v.mul scalar

/-- The list comprehension `[a / scalar for a in self.data]`: in CPython a
float division by zero raises `ZeroDivisionError` at the first element, so
the comprehension fails as soon as the list is non-empty and the scalar is
zero. -/
def divList (l : List ℚ) (scalar : ℚ) : Except PyError (List ℚ) :=
  match l with
  | [] => .ok []
  | a :: rest =>
      if scalar = 0 then .error (.zeroDivisionError "float division by zero")
      else (divList rest scalar).map (fun qs => a / scalar :: qs)

/-- Models `Vector.__truediv__`:
`Vector([a / scalar for a in self.data])`. -/
def Vector.truediv (v : Vector) (scalar : ℚ) : Except PyError Vector :=
  (divList v.data scalar).bind vecOfFloats

/-- The body of `Vector.__matmul__`:
`sum(a * b for a, b in zip(self.data, other.data))`. -/
def rawDot (a b : Vector) : Except PyError ℚ :=
  .ok ((List.zipWith (fun x y => x * y) a.data b.data).sum)

/-- Models `Vector.__matmul__`, wrapped by `validate_vector`. -/
def Vector.matmul (a b : Vector) : Except PyError ℚ :=
  validate_vector rawDot a b

/-- Models `Vector.__abs__`: `sqrt(self @ self)`.  The dot product of a
vector with itself is a sum of squares, hence never negative, so
`math.sqrt` never raises here; it is modelled by `Real.sqrt`. -/
noncomputable def Vector.abs (v : Vector) : Except PyError ℝ :=
  (v.matmul v).map (fun q => Real.sqrt (q : ℝ))

open Classical in
/-- The list comprehension `[a / m for a in self.data]` with a real divisor
`m` (the magnitude): as in `divList`, a zero divisor raises
`ZeroDivisionError` at the first element. -/
noncomputable def divListR (l : List ℚ) (m : ℝ) : Except PyError (List ℝ) :=
  match l with
  | [] => .ok []
  | a :: rest =>
      if m = 0 then .error (.zeroDivisionError "float division by zero")
      else (divListR rest m).map (fun rs => (a : ℝ) / m :: rs)

/-- The real-valued vector produced by `normalize` (its elements are
quotients by a square root, hence modelled in `ℝ`). -/
structure RVector where
  data : List ℝ

/-- Models `Vector.normalize`:
`Vector([a / abs(self) for a in self.data])`. -/
noncomputable def Vector.normalize (v : Vector) : Except PyError RVector :=
  v.abs.bind (fun m =>
    (divListR v.data m).bind (fun l =>
      if l.isEmpty then .error (.valueError "Data cannot be empty")
      else .ok ⟨l⟩))

/-- Models `Vector.distance`: `return abs(self - other)`. -/
noncomputable def Vector.distance (a b : Vector) : Except PyError ℝ :=
  (a.sub b).bind Vector.abs

/-- Decidable equality on `Except`, for evaluating the model on concrete
inputs. -/
instance {ε α : Type} [DecidableEq ε] [DecidableEq α] :
    DecidableEq (Except ε α) := fun a b =>
  match a, b with
  | .ok x, .ok y =>
      match decEq x y with
      | .isTrue h => .isTrue (by rw [h])
      | .isFalse h => .isFalse (by intro hc; cases hc; exact h rfl)
  | .error x, .error y =>
      match decEq x y with
      | .isTrue h => .isTrue (by rw [h])
      | .isFalse h => .isFalse (by intro hc; cases hc; exact h rfl)
  | .ok _, .error _ => .isFalse (by intro hc; cases hc)
  | .error _, .ok _ => .isFalse (by intro hc; cases hc)

/-- Extracting the floats of an all-float list returns the list unchanged. -/
theorem extractFloats_map_float (l : List ℚ) :
    extractFloats (l.map PyVal.float) = .ok l := by
  induction l with
  | nil => rfl
  | cons x rest ih => simp [extractFloats, ih, Except.map]

/-- C1: for vectors of different lengths, `add`, `subtract` and `dot`
all fail with the length-mismatch `ValueError`; for vectors of equal
length, the `validate_vector` wrapper delegates to the wrapped
element-wise operation on the unchanged operands and returns its result
verbatim. -/
theorem add_sub_dot_validated (a b : Vector) :
    (a.data.length ≠ b.data.length →
      a.add b = .error (.valueError "Vectors must be of same length") ∧
      a.sub b = .error (.valueError "Vectors must be of same length") ∧
      a.matmul b = .error (.valueError "Vectors must be of same length")) ∧
    (a.data.length = b.data.length →
      a.add b = rawAdd a b ∧
      a.sub b = rawSub a b ∧
      a.matmul b = rawDot a b) := by
  constructor
  · intro h
    exact ⟨by simp [Vector.add, validate_vector, h],
           by simp [Vector.sub, validate_vector, h],
           by simp [Vector.matmul, validate_vector, h]⟩
  · intro h
    exact ⟨by simp [Vector.add, validate_vector, h],
           by simp [Vector.sub, validate_vector, h],
           by simp [Vector.matmul, validate_vector, h]⟩

/-- Witness for C1 at the spec's own example `add(Vector([1.0,2.0]),
Vector([1.0,2.0,3.0]))`, and a matching-length pair. -/
theorem add_sub_dot_validated_witness :
    Vector.add ⟨[1, 2]⟩ ⟨[1, 2, 3]⟩ =
      .error (.valueError "Vectors must be of same length") ∧
    Vector.add ⟨[1, 2]⟩ ⟨[3, 4]⟩ = rawAdd ⟨[1, 2]⟩ ⟨[3, 4]⟩ ∧
    rawAdd ⟨[1, 2]⟩ ⟨[3, 4]⟩ = .ok ⟨[4, 6]⟩ :=
  ⟨((add_sub_dot_validated ⟨[1, 2]⟩ ⟨[1, 2, 3]⟩).1 (by decide)).1,
   ((add_sub_dot_validated ⟨[1, 2]⟩ ⟨[3, 4]⟩).2 (by decide)).1,
   by norm_num [rawAdd, vecOfFloats]⟩

/-- C2: constructing a `Vector` from the empty sequence fails with
`ValueError` ("InvalidArgument"); constructing from any non-empty list
of floats succeeds, and the length of the resulting vector equals the
length of the input. -/
theorem mkVector_spec (l : List ℚ) (h : l ≠ []) :
    mkVector [] = .error (.valueError "Data cannot be empty") ∧
    mkVector (l.map PyVal.float) = .ok ⟨l⟩ ∧
    (Vector.mk l).length = l.length := by
  refine ⟨rfl, ?_, rfl⟩
  have he : (l.map PyVal.float).isEmpty = false := by
    cases l with
    | nil => exact absurd rfl h
    | cons x rest => rfl
  simp [mkVector, he, extractFloats_map_float, Except.map]

/-- Witness for C2 at the input `[1.0, 2.0]`. -/
theorem mkVector_spec_witness :
    mkVector [] = .error (.valueError "Data cannot be empty") ∧
    mkVector [PyVal.float 1, PyVal.float 2] = .ok ⟨[1, 2]⟩ ∧
    (Vector.mk [1, 2]).length = 2 :=
  mkVector_spec [1, 2] (by decide)

/-- Dividing the elements of a non-empty list by the zero scalar raises
`ZeroDivisionError` at the first element. -/
theorem divList_zero (l : List ℚ) (h : l ≠ []) :
    divList l 0 = .error (.zeroDivisionError "float division by zero") := by
  cases l with
  | nil => exact absurd rfl h
  | cons x rest => simp [divList]

/-- `truediv` by the zero scalar fails with `ZeroDivisionError` on every
non-empty vector. -/
theorem truediv_zero (v : Vector) (h : v.data ≠ []) :
    v.truediv 0 = .error (.zeroDivisionError "float division by zero") := by
  simp [Vector.truediv, divList_zero v.data h, Except.bind]

/-- When the magnitude is zero, `normalize` raises `ZeroDivisionError` at
the first element of its comprehension. -/
theorem normalize_zero (v : Vector) (h : v.data ≠ [])
    (habs : v.abs = .ok 0) :
    v.normalize = .error (.zeroDivisionError "float division by zero") := by
  cases v with
  | mk d =>
    cases d with
    | nil => exact absurd rfl h
    | cons x rest => simp [Vector.normalize, habs, divListR, Except.bind]

/-- C3: `normalize` fails with `ZeroDivisionError` ("DivisionByZero") on
every vector of zero magnitude, and `divide` by the zero scalar fails with
`ZeroDivisionError` on every vector.  (Every vector the constructor
accepts has non-empty data.) -/
theorem div_and_normalize_by_zero_fail (v : Vector) (h : v.data ≠ []) :
    v.truediv 0 = .error (.zeroDivisionError "float division by zero") ∧
    (v.abs = .ok 0 →
      v.normalize = .error (.zeroDivisionError "float division by zero")) :=
  ⟨truediv_zero v h, normalize_zero v h⟩

/-- Witness for C3 at the zero vector `Vector([0.0])`, whose magnitude is
zero. -/
theorem div_and_normalize_by_zero_fail_witness :
    Vector.truediv ⟨[0]⟩ 0 = .error (.zeroDivisionError "float division by zero") ∧
    Vector.normalize ⟨[0]⟩ = .error (.zeroDivisionError "float division by zero") := by
  have habs : Vector.abs ⟨[(0 : ℚ)]⟩ = .ok 0 := by
    simp [Vector.abs, Vector.matmul, validate_vector, rawDot, Except.map]
  exact ⟨(div_and_normalize_by_zero_fail ⟨[0]⟩ (by decide)).1,
         (div_and_normalize_by_zero_fail ⟨[0]⟩ (by decide)).2 habs⟩

/-- Counterexample to C4: dividing `Vector([1.0])` by the zero scalar
raises `ZeroDivisionError` — CPython float division by zero raises rather
than producing `inf`, so the source does not silently produce
Infinity/NaN values. -/
theorem truediv_zero_raises :
    Vector.truediv ⟨[1]⟩ 0 = .error (.zeroDivisionError "float division by zero") := by
  simp [Vector.truediv, divList, Except.bind]

/-- C4 (amended): dividing by a zero scalar or normalizing a
zero-magnitude vector never silently returns a result vector: the
unguarded division itself raises `ZeroDivisionError`. -/
theorem div_and_normalize_by_zero_never_ok (v : Vector) (h : v.data ≠ []) :
    (∀ w, v.truediv 0 ≠ .ok w) ∧
    (v.abs = .ok 0 → ∀ w, v.normalize ≠ .ok w) := by
  refine ⟨?_, ?_⟩
  · intro w hc
    rw [truediv_zero v h] at hc
    exact Except.noConfusion hc
  · intro habs w hc
    rw [normalize_zero v h habs] at hc
    exact Except.noConfusion hc

/-- Witness for C4's amended statement at the zero vector `Vector([0.0])`. -/
theorem div_and_normalize_by_zero_never_ok_witness :
    Vector.truediv ⟨[0]⟩ 0 ≠ .ok ⟨[0]⟩ ∧
    Vector.normalize ⟨[0]⟩ ≠ .ok ⟨[0]⟩ := by
  have habs : Vector.abs ⟨[(0 : ℚ)]⟩ = .ok 0 := by
    simp [Vector.abs, Vector.matmul, validate_vector, rawDot, Except.map]
  exact ⟨(div_and_normalize_by_zero_never_ok ⟨[0]⟩ (by decide)).1 ⟨[0]⟩,
         (div_and_normalize_by_zero_never_ok ⟨[0]⟩ (by decide)).2 habs ⟨[0]⟩⟩

/-- Counterexample to C5: `-1` is outside `[0, len)`, yet
`Vector([1.0, 2.0])[-1]` succeeds (Python negative indexing) instead of
failing with `IndexError` ("OutOfRange"). -/
theorem getitem_neg_one_ok : Vector.getitem ⟨[1, 2]⟩ (-1) = .ok 2 := by
  simp [Vector.getitem, pyListGet]

/-- C5 (amended): `v[i]` equals the stored element at `i` for `i` in
`[0, len)`; `v[index]` fails with `IndexError` ("OutOfRange") exactly when
`index ≥ len` or `index < -len` — in particular `v[len]` fails — while
negative indices down to `-len` are resolved by Python's wrap-around rule
(claim C9). -/
theorem getitem_spec (v : Vector) (i : ℤ) :
    (0 ≤ i → i < (v.data.length : ℤ) →
      v.getitem i = .ok (v.data.getD i.toNat 0)) ∧
    ((v.data.length : ℤ) ≤ i ∨ i < -(v.data.length : ℤ) →
      v.getitem i = .error (.indexError "list index out of range")) ∧
    v.getitem (v.data.length : ℤ) =
      .error (.indexError "list index out of range") := by
  refine ⟨?_, ?_, ?_⟩
  · intro h1 h2
    have hneg : ¬ i < 0 := by omega
    have hc : 0 ≤ i ∧ i < (v.data.length : ℤ) := ⟨h1, h2⟩
    simp [Vector.getitem, pyListGet, hneg, hc]
  · intro hcase
    by_cases hneg : i < 0
    · have hc : ¬ (0 ≤ i + (v.data.length : ℤ) ∧
          i + (v.data.length : ℤ) < (v.data.length : ℤ)) := by omega
      simp [Vector.getitem, pyListGet, hneg, hc]
      omega
    · have hc : ¬ (0 ≤ i ∧ i < (v.data.length : ℤ)) := by omega
      simp [Vector.getitem, pyListGet, hneg, hc]
  · have hneg : ¬ ((v.data.length : ℤ) < 0) := by omega
    have hc : ¬ (0 ≤ (v.data.length : ℤ) ∧
        (v.data.length : ℤ) < (v.data.length : ℤ)) := by omega
    simp [Vector.getitem, pyListGet, hneg, hc]

/-- Witness for C5's amended statement on `Vector([5.0, 7.0])`: index 1 is
read back, index 2 (= len) and index -3 fail. -/
theorem getitem_spec_witness :
    Vector.getitem ⟨[5, 7]⟩ 1 = .ok (([5, 7] : List ℚ).getD (1 : ℤ).toNat 0) ∧
    Vector.getitem ⟨[5, 7]⟩ 2 = .error (.indexError "list index out of range") ∧
    Vector.getitem ⟨[5, 7]⟩ (-3) = .error (.indexError "list index out of range") :=
  ⟨(getitem_spec ⟨[5, 7]⟩ 1).1 (by decide) (by decide),
   (getitem_spec ⟨[5, 7]⟩ 2).2.1 (Or.inl (by decide)),
   (getitem_spec ⟨[5, 7]⟩ (-3)).2.1 (Or.inr (by decide))⟩

/-- C9: for `-len ≤ i ≤ -1` the access `v[i]` succeeds and returns the
element at position `len + i`, by Python's negative-index rule. -/
theorem getitem_negative_index (v : Vector) (i : ℤ)
    (h1 : -(v.data.length : ℤ) ≤ i) (h2 : i ≤ -1) :
    v.getitem i = .ok (v.data.getD ((v.data.length : ℤ) + i).toNat 0) := by
  have hneg : i < 0 := by omega
  have hc : 0 ≤ i + (v.data.length : ℤ) ∧
      i + (v.data.length : ℤ) < (v.data.length : ℤ) := by omega
  have hcomm : i + (v.data.length : ℤ) = (v.data.length : ℤ) + i := by ring
  simp [Vector.getitem, pyListGet, hneg, hc, hcomm]
  omega

/-- Witness for C9: `Vector([5.0, 7.0])[-1]` returns the element at
position `2 + (-1) = 1`. -/
theorem getitem_negative_index_witness :
    Vector.getitem ⟨[5, 7]⟩ (-1) =
      .ok (([5, 7] : List ℚ).getD ((2 : ℤ) + (-1)).toNat 0) :=
  getitem_negative_index ⟨[5, 7]⟩ (-1) (by decide) (by decide)

/-- Extraction fails with `TypeError` as soon as some element is not a
float. -/
theorem extractFloats_nonfloat (l : List PyVal)
    (hx : ∃ x ∈ l, x.isFloat = false) :
    extractFloats l = .error (.typeError "Data must be a float or int") := by
  induction l with
  | nil => simp at hx
  | cons a rest ih =>
    cases a with
    | float q =>
      obtain ⟨x, hmem, hf⟩ := hx
      rcases List.mem_cons.mp hmem with rfl | hr
      · exact absurd hf (by simp [PyVal.isFloat])
      · simp [extractFloats, ih ⟨x, hr, hf⟩, Except.map]
    | int n => rfl
    | bool b => rfl
    | none => rfl

/-- C10: constructing a `Vector` from a non-empty list with at least one
element that is not a Python float (ints and bools included, since
`isinstance(x, float)` rejects both) fails with `TypeError`, whose message
nevertheless reads "Data must be a float or int". -/
theorem mkVector_nonfloat (l : List PyVal) (h : l ≠ [])
    (hx : ∃ x ∈ l, x.isFloat = false) :
    mkVector l = .error (.typeError "Data must be a float or int") := by
  have he : l.isEmpty = false := by
    cases l with
    | nil => exact absurd rfl h
    | cons a rest => rfl
  simp [mkVector, he, extractFloats_nonfloat l hx, Except.map]

/-- Witness for C10 on the inputs `[3]` (an int) and `[True]` (a bool). -/
theorem mkVector_nonfloat_witness :
    mkVector [PyVal.int 3] = .error (.typeError "Data must be a float or int") ∧
    mkVector [PyVal.bool true] = .error (.typeError "Data must be a float or int") :=
  ⟨mkVector_nonfloat [PyVal.int 3] (by decide) ⟨PyVal.int 3, by decide, rfl⟩,
   mkVector_nonfloat [PyVal.bool true] (by decide) ⟨PyVal.bool true, by decide, rfl⟩⟩

/-- The dot product of a list with itself, `sum(a * a for ...)`. -/
def sumSq (l : List ℚ) : ℚ := (List.zipWith (fun x y => x * y) l l).sum

theorem sumSq_cons (x : ℚ) (l : List ℚ) : sumSq (x :: l) = x * x + sumSq l := by
  simp [sumSq]

theorem sumSq_nonneg (l : List ℚ) : 0 ≤ sumSq l := by
  induction l with
  | nil => simp [sumSq]
  | cons x rest ih =>
    rw [sumSq_cons]
    exact add_nonneg (mul_self_nonneg x) ih

theorem sumSq_eq_zero_iff (l : List ℚ) : sumSq l = 0 ↔ ∀ x ∈ l, x = 0 := by
  induction l with
  | nil => simp [sumSq]
  | cons x rest ih =>
    rw [sumSq_cons, List.forall_mem_cons,
      add_eq_zero_iff_of_nonneg (mul_self_nonneg x) (sumSq_nonneg rest),
      mul_self_eq_zero, ih]

theorem sumSq_diffs_comm (a b : List ℚ) :
    sumSq (List.zipWith (fun x y => x - y) a b) =
      sumSq (List.zipWith (fun x y => x - y) b a) := by
  induction a generalizing b with
  | nil => cases b <;> simp
  | cons x xs ih =>
    cases b with
    | nil => simp
    | cons y ys =>
      simp only [List.zipWith_cons_cons, sumSq_cons, ih ys]
      ring_nf

theorem zipWith_sub_eq_zero_iff (a b : List ℚ) (h : a.length = b.length) :
    (∀ x ∈ List.zipWith (fun x y => x - y) a b, x = 0) ↔ a = b := by
  induction a generalizing b with
  | nil =>
    cases b with
    | nil => simp
    | cons y ys => simp at h
  | cons x xs ih =>
    cases b with
    | nil => simp at h
    | cons y ys =>
      have h' : xs.length = ys.length := by simpa using h
      simp [List.forall_mem_cons, sub_eq_zero, ih ys h']

/-- A non-empty list is not `isEmpty`. -/
theorem isEmpty_false_of_ne_nil {α : Type} (l : List α) (h : l ≠ []) :
    l.isEmpty = false := by
  cases l with
  | nil => exact absurd rfl h
  | cons x rest => rfl

/-- On equal-length vectors, the validated subtraction succeeds and
returns the element-wise difference. -/
theorem sub_ok (a b : Vector) (ha : a.data ≠ [])
    (h : a.data.length = b.data.length) :
    a.sub b = .ok ⟨List.zipWith (fun x y => x - y) a.data b.data⟩ := by
  have hlen : (List.zipWith (fun x y => x - y) a.data b.data).length =
      a.data.length := by
    rw [List.length_zipWith, h, min_self]
  have hne : (List.zipWith (fun x y => x - y) a.data b.data) ≠ [] := by
    intro hnil
    apply ha
    rw [← List.length_eq_zero, ← hlen, hnil]
    rfl
  simp [Vector.sub, validate_vector, h, rawSub, vecOfFloats,
    isEmpty_false_of_ne_nil _ hne]

/-- The magnitude always evaluates to the square root of the sum of
squares of the data. -/
theorem abs_ok (v : Vector) :
    v.abs = .ok (Real.sqrt ((sumSq v.data : ℚ) : ℝ)) := by
  simp [Vector.abs, Vector.matmul, validate_vector, rawDot, Except.map, sumSq]

/-- On non-empty equal-length vectors, `distance` evaluates to the square
root of the sum of squared differences. -/
theorem distance_eval (a b : Vector) (ha : a.data ≠ [])
    (h : a.data.length = b.data.length) :
    a.distance b = .ok (Real.sqrt
      ((sumSq (List.zipWith (fun x y => x - y) a.data b.data) : ℚ) : ℝ)) := by
  rw [show a.distance b = (a.sub b).bind Vector.abs from rfl, sub_ok a b ha h]
  simp [Except.bind, abs_ok]

/-- C6: on non-empty equal-length vectors, `distance(a, b)` is the
magnitude of `subtract(a, b)`; it is symmetric; `distance(a, a)` is zero;
and any returned value is non-negative and zero exactly when the two
vectors agree element-wise. -/
theorem distance_spec (a b : Vector) (ha : a.data ≠ [])
    (h : a.data.length = b.data.length) :
    (∀ d, a.sub b = .ok d → a.distance b = d.abs) ∧
    a.distance b = .ok (Real.sqrt
      ((sumSq (List.zipWith (fun x y => x - y) a.data b.data) : ℚ) : ℝ)) ∧
    a.distance b = b.distance a ∧
    a.distance a = .ok 0 ∧
    (∀ r, a.distance b = .ok r → 0 ≤ r ∧ (r = 0 ↔ a.data = b.data)) := by
  have hb : b.data ≠ [] := by
    intro hnil
    apply ha
    rw [← List.length_eq_zero, h, hnil]
    rfl
  refine ⟨?_, distance_eval a b ha h, ?_, ?_, ?_⟩
  · intro d hd
    simp [Vector.distance, hd, Except.bind]
  · rw [distance_eval a b ha h, distance_eval b a hb h.symm,
      sumSq_diffs_comm]
  · rw [distance_eval a a ha rfl,
      (sumSq_eq_zero_iff _).mpr ((zipWith_sub_eq_zero_iff _ _ rfl).mpr rfl)]
    simp
  · intro r hr
    rw [distance_eval a b ha h] at hr
    have hreq : r = Real.sqrt
        ((sumSq (List.zipWith (fun x y => x - y) a.data b.data) : ℚ) : ℝ) :=
      (Except.ok.inj hr).symm
    have hq := sumSq_nonneg (List.zipWith (fun x y => x - y) a.data b.data)
    refine ⟨hreq ▸ Real.sqrt_nonneg _, ?_⟩
    rw [hreq]
    constructor
    · intro h0
      have hle : ((sumSq (List.zipWith (fun x y => x - y) a.data b.data) : ℚ) : ℝ) ≤ 0 :=
        Real.sqrt_eq_zero'.mp h0
      have hq0 : sumSq (List.zipWith (fun x y => x - y) a.data b.data) = 0 :=
        le_antisymm (by exact_mod_cast hle) hq
      exact (zipWith_sub_eq_zero_iff a.data b.data h).mp
        ((sumSq_eq_zero_iff _).mp hq0)
    · intro hab
      rw [(sumSq_eq_zero_iff _).mpr ((zipWith_sub_eq_zero_iff _ _ h).mpr hab)]
      simp

/-- Witness for C6 at the spec's example pair `Vector([0.0, 0.0])`,
`Vector([3.0, 4.0])`. -/
theorem distance_spec_witness :
    Vector.distance ⟨[0, 0]⟩ ⟨[3, 4]⟩ = Vector.distance ⟨[3, 4]⟩ ⟨[0, 0]⟩ ∧
    Vector.distance ⟨[0, 0]⟩ ⟨[0, 0]⟩ = .ok 0 :=
  ⟨(distance_spec ⟨[0, 0]⟩ ⟨[3, 4]⟩ (by decide) (by decide)).2.2.1,
   (distance_spec ⟨[0, 0]⟩ ⟨[3, 4]⟩ (by decide) (by decide)).2.2.2.1⟩

/-- C7: the dot product of equal-length vectors is commutative, and
scalar multiplication with the scalar on the right (`__mul__`) and on the
left (`__rmul__`) produce identical results. -/
theorem dot_comm_and_scale_comm (a b : Vector)
    (h : a.data.length = b.data.length) :
    a.matmul b = b.matmul a ∧
    ∀ (v : Vector) (k : ℚ), v.mul k = Vector.rmul k v := by
  constructor
  · simp only [Vector.matmul, validate_vector, h, rawDot, ne_eq,
      not_true_eq_false, if_false]
    rw [List.zipWith_comm_of_comm (fun x y => x * y) mul_comm a.data b.data]
  · intro v k
    rfl

/-- Witness for C7 at the spec's example `dot(Vector([1.0, 0.0]),
Vector([0.0, 1.0]))` and a concrete scalar. -/
theorem dot_comm_and_scale_comm_witness :
    Vector.matmul ⟨[1, 0]⟩ ⟨[0, 1]⟩ = Vector.matmul ⟨[0, 1]⟩ ⟨[1, 0]⟩ ∧
    Vector.mul ⟨[1, 0]⟩ 5 = Vector.rmul 5 ⟨[1, 0]⟩ :=
  ⟨(dot_comm_and_scale_comm ⟨[1, 0]⟩ ⟨[0, 1]⟩ (by decide)).1,
   (dot_comm_and_scale_comm ⟨[1, 0]⟩ ⟨[0, 1]⟩ (by decide)).2 ⟨[1, 0]⟩ 5⟩

end Scratch
